import Mathlib

/-
Verification development for the EV3 device-communication layer
(scratch3_ev3 extension: command-frame builder, reply parser,
discovery/poll state machine, motor command encoding and coast
scheduling, and the outbound send gate).

The definitions below are a shallow embedding of the JavaScript source
in src/extensions/scratch3_ev3/ev3.js (and its split representation).
JS numbers are modelled as Nat / Int / Rat as appropriate; JS `undefined`
array reads are modelled with Option; the IEEE-754 float32 decode used
for sensor values (a DataView builtin, external to the repository) is an
abstract parameter of the reply handler.
-/

set_option maxRecDepth 4000

namespace EV3Spec

/-- Device type labels from the Ev3Device table (firmware code to label);
the JS string label none is the constructor `Dev.none`. -/
inductive Dev where
  | color
  | ultrasonic
  | gyro
  | touch
  | mediumMotor
  | largeMotor
  | none
  deriving DecidableEq, BEq, Repr

/-- Ev3Device lookup followed by the falsy fallback to the none label:
codes 29/30/32/16/8/7 map to device labels, 126 and 125 map to
the `Dev.none` label explicitly, and every other code falls through to
`Dev.none` (an undefined lookup result is falsy in JS). -/
def devOf (b : Nat) : Dev :=
  if b = 29 then Dev.color
  else if b = 30 then Dev.ultrasonic
  else if b = 32 then Dev.gyro
  else if b = 16 then Dev.touch
  else if b = 8 then Dev.mediumMotor
  else if b = 7 then Dev.largeMotor
  else Dev.none

/-- Reading `Ev3Device[data[k]]` where `data[k]` may be a JS `undefined`
(out-of-range read): an undefined index also falls through to `Dev.none`. -/
def devOfOpt (o : Option Nat) : Dev :=
  match o with
  | Option.none => Dev.none
  | Option.some b => devOf b

/-- The Ev3Label table values: button, brightness, distance. -/
inductive SensorLabel where
  | button
  | brightness
  | distance
  deriving DecidableEq, BEq, Repr

/-- Lookup `Ev3Label[port]` where `port` is the stored sensor-port value or
undefined: only touch/color/ultrasonic have entries; everything else
(including `Dev.none`, gyro, motor labels and undefined) yields undefined. -/
def labelOf : Option Dev → Option SensorLabel
  | Option.some Dev.touch => Option.some SensorLabel.button
  | Option.some Dev.color => Option.some SensorLabel.brightness
  | Option.some Dev.ultrasonic => Option.some SensorLabel.distance
  | _ => Option.none

/-- Lookup `Ev3Mode[port]`: touch maps to 0, color and ultrasonic map to 1, the
`Dev.none` label maps to 0; gyro, motor labels and undefined have no entry
(JS undefined, modelled as `Option.none`). -/
def modeOf : Option Dev → Option Nat
  | Option.some Dev.touch => Option.some 0
  | Option.some Dev.color => Option.some 1
  | Option.some Dev.ultrasonic => Option.some 1
  | Option.some Dev.none => Option.some 0
  | _ => Option.none

/-- JS logical AND `x && y` on two non-negative numbers: returns `x` when
`x` is falsy (zero), otherwise returns `y`. The source uses this (instead
of bitwise AND) when writing the high bytes of the length and allocation
fields. -/
def jsAnd (x y : Nat) : Nat :=
  if x = 0 then x else y

/-- EV3.generateCommand: builds `[lenLo, lenHi, 0, 0, type, allocLo,
allocHi] ++ byteCommands`. The length written is the array length after
the concat minus the two length bytes, i.e. `5 + byteCommands.length`.
The low bytes use bitwise AND (`% 256`); the high bytes use the
JS logical AND (`jsAnd`). JS numbers are modelled below 2^31, where
`x >> 8` is `x / 256` and `x & 0xFF` is `x % 256`. -/
def generateCommand (ty : Nat) (byteCommands : List Nat) (allocation : Nat) : List Nat :=
  let len := 5 + byteCommands.length
  [len % 256, jsAnd (len / 256) 0xFF, 0, 0, ty,
    allocation % 256, jsAnd (allocation / 256) 0xFF] ++ byteCommands

/-- The value of the 2-byte little-endian length field in bytes 0-1 of a
frame (out-of-range reads default to 0). -/
def lenField (frame : List Nat) : Nat :=
  (frame.get? 0).getD 0 + 256 * (frame.get? 1).getD 0

/-- EV3Motor._runValues: the steady-run operand. Strictly below 0x7FFF the
run length is emitted as a TWO_BYTES (0x82) operand, otherwise as a
FOUR_BYTES (0x83) operand. Byte extraction `(run >> 8k) & 0xff` is
`run / 256^k % 256` (identical to the JS 32-bit shift-and-mask for every
natural number, since 256 divides 2^32). -/
def runValues (run : Nat) : List Nat :=
  if run < 0x7fff then
    [0x82, run % 256, run / 256 % 256]
  else
    [0x83, run % 256, run / 256 % 256, run / 65536 % 256, run / 16777216 % 256]

/-- EV3Motor._portMask: port index i maps to output bit field 2^i. -/
def portMask (port : Nat) : Nat := 2 ^ port

/-- State of one EV3Motor instance: index, type, direction (1 or -1),
power, position, the in-flight coast command id (null modelled as
`Option.none`) and the coast delay (1000 ms). -/
structure MotorT where
  index : Nat
  typ : Dev
  direction : Int
  power : Int
  position : Int
  commandID : Option Nat
  coastDelay : Int
  deriving DecidableEq, Repr

/-- Constructor `new EV3Motor(parent, index, type)`: direction 1, power 50,
position 0, commandID null, coastDelay 1000. -/
def newMotor (index : Nat) (typ : Dev) : MotorT :=
  { index := index, typ := typ, direction := 1, power := 50,
    position := 0, commandID := Option.none, coastDelay := 1000 }

/-- The 4-byte little-endian twos-complement decode from the EV3Motor
position setter: `array[0] + array[1]*256 + array[2]*256*256 +
array[3]*256*256*256`, with `0x100000000` subtracted when the unsigned
value exceeds `0x7fffffff`. -/
def decodeInt32 (b0 b1 b2 b3 : Nat) : Int :=
  let value : Int := (b0 : Int) + (b1 : Int) * 256 + (b2 : Int) * 256 * 256
    + (b3 : Int) * 256 * 256 * 256
  if value > 0x7fffffff then value - 0x100000000 else value

/-- Byte read `data[k]` totalised to 0; JS reads past the end of a buffer
yield undefined (the model totalises those to 0, which no claim below
exercises: reply buffers are long enough in every statement). -/
def byteD (data : List Nat) (k : Nat) : Nat :=
  (data.get? k).getD 0

/-- The EV3Motor position setter applied to a 4-entry byte array. -/
def setPosition (m : MotorT) (arr : List Nat) : MotorT :=
  { m with position := decodeInt32 (byteD arr 0) (byteD arr 1) (byteD arr 2) (byteD arr 3) }

/-- EV3Motor.turnOnFor byte command (opcode OPOUTPUT_TIME_SPEED 0xAF with
layer, port bit field, speed, ramp-up, steady-run, ramp-down, brake
operands), translated from the source: negative speed flips both speed
and the duration; a duration shorter than both ramps shrinks the ramps
and forces the steady run to 0. -/
def turnOnForFrame (m : MotorT) (milliseconds : Int) : List Nat :=
  let port := portMask m.index
  let speed0 := m.power * m.direction
  let speed := if speed0 < 0 then -1 * speed0 else speed0
  let n1 := if speed0 < 0 then -1 * milliseconds else milliseconds
  let dir : Int := if n1 < 0 then 0x100 - speed else speed
  let n := |n1|
  let run0 := n - 50 * 2
  let rampup := if run0 < 0 then n / 2 else 50
  let run := if run0 < 0 then 0 else run0
  let rampdown := if run0 < 0 then n - n / 2 else 50
  [0xAF, 0, port, 0x81, (dir.emod 256).toNat, 0x81, rampup.toNat]
    ++ runValues run.toNat
    ++ [0x81, rampdown.toNat, 1]

/-- The complete DIRECT_COMMAND_NO_REPLY frame sent by turnOnFor. -/
def turnOnForCmd (m : MotorT) (milliseconds : Int) : List Nat :=
  generateCommand 0x80 (turnOnForFrame m milliseconds) 0

/-- The complete coast frame from EV3Motor.coast: OPOUTPUT_STOP (0xA3),
layer 0, port bit field, COAST (0). -/
def coastCmd (m : MotorT) : List Nat :=
  generateCommand 0x80 [0xA3, 0, portMask m.index, 0] 0

/-- A motor together with its environment for the coast-race scenario:
the uid counter (uid() is an external collaborator; the spec allows any
monotonically-unique token generator, modelled as a counter), the armed
coast timers as (captured token, fire time) pairs, and the frames handed
to the session for sending. -/
structure MotorRun where
  motor : MotorT
  uidCtr : Nat
  timers : List (Nat × Int)
  sent : List (List Nat)
  deriving DecidableEq, Repr

/-- EV3Motor.coast: no-op at zero power, otherwise emits the coast frame
(sent bypassing the rate limiter). -/
def coastRun (s : MotorRun) : MotorRun :=
  if s.motor.power = 0 then s
  else { s with sent := s.sent ++ [coastCmd s.motor] }

/-- EV3Motor.coastAfter: no-op at zero power; otherwise takes a fresh
token from uid(), stores it as the current commandID of the motor and arms a
timer for `time + coastDelay` that captures the token. -/
def coastAfterRun (time : Int) (s : MotorRun) : MotorRun :=
  if s.motor.power = 0 then s
  else
    { s with
      motor := { s.motor with commandID := Option.some s.uidCtr },
      uidCtr := s.uidCtr + 1,
      timers := s.timers ++ [(s.uidCtr, time + s.motor.coastDelay)] }

/-- EV3Motor.turnOnFor: no-op at zero power; otherwise emits the run
frame and arms the coast timer via coastAfter. -/
def turnOnForRun (milliseconds : Int) (s : MotorRun) : MotorRun :=
  if s.motor.power = 0 then s
  else
    coastAfterRun milliseconds { s with sent := s.sent ++ [turnOnForCmd s.motor milliseconds] }

/-- The deferred callback armed by coastAfter, fired with its captured
token: it acts (coast, then clear commandID) only when the captured token
still equals the current commandID of the motor. -/
def fireCoastTimer (captured : Nat) (s : MotorRun) : MotorRun :=
  if s.motor.commandID = Option.some captured then
    let s1 := coastRun s
    { s1 with motor := { s1.motor with commandID := Option.none } }
  else s

/-- Number of coast frames (opcode byte 0xA3 at index 7, right after the
7-byte header) among the frames handed to the session. -/
def coastCount (s : MotorRun) : Nat :=
  (s.sent.filter (fun f => f.get? 7 == Option.some 0xA3)).length

/-- The two back-to-back scheduled runs of the coast-race scenario:
turnOnFor(100) then turnOnFor(50) from a session with uid counter c and
no armed timers. -/
def coastRaceStart (m : MotorT) (c : Nat) : MotorRun :=
  turnOnForRun 50 (turnOnForRun 100 { motor := m, uidCtr := c, timers := [], sent := [] })

/-- The aggregate sensor readings of the session, `this._sensors`:
distance and brightness aggregates and the 4-entry button array. The
stored values are the decoded float32 values (rationals in the model). -/
structure Sensors where
  distance : Rat
  brightness : Rat
  buttons : List Rat
  deriving DecidableEq, Repr

/-- The session state mutated by _onMessage: the sensor-port and
motor-port tables (`this._sensorPorts` / `this._motorPorts`, JS arrays
that are empty until the first device-list reply, then hold 4 device
labels; an element modelled `Option.none` is a JS undefined hole),
the aggregate readings, the motor instance slots (null modelled as
`Option.none`) and the `_updateDevices` flag (undefined before the first
device-list poll, modelled false). -/
structure EV3State where
  sensorPorts : List (Option Dev)
  motorPorts : List (Option Dev)
  sensors : Sensors
  motors : List (Option MotorT)
  updateDevices : Bool
  deriving DecidableEq, Repr

/-- The state installed by the EV3 constructor and by reset(). -/
def initialState : EV3State :=
  { sensorPorts := [], motorPorts := [],
    sensors := { distance := 0, brightness := 0, buttons := [0, 0, 0, 0] },
    motors := [Option.none, Option.none, Option.none, Option.none],
    updateDevices := false }

/-- The `value ? value : 0` coercion on a decoded float: a falsy value
(zero; NaN is not representable in the rational model) is replaced by 0. -/
def jsTruthy (v : Rat) : Rat :=
  if v = 0 then 0 else v

/-- One iteration of the sensor-parsing loop of _onMessage: decode the
4 bytes at offset `5 + 4*i` through the float32 decoder `dec`, then
dispatch on `Ev3Label[this._sensorPorts[i]]`: a button label stores
into the button slot for that port, brightness and distance labels
overwrite the corresponding aggregate, any other port (including an
unset or `Dev.none` port) is skipped. -/
def sensorStep (dec : Nat → Nat → Nat → Nat → Rat) (data : List Nat)
    (sp : List (Option Dev)) (i : Nat) (sens : Sensors) : Sensors :=
  let off := 5 + 4 * i
  let value := dec (byteD data off) (byteD data (off + 1)) (byteD data (off + 2))
    (byteD data (off + 3))
  match labelOf ((sp.get? i).join) with
  | Option.some SensorLabel.button =>
    { sens with buttons := sens.buttons.set i (jsTruthy value) }
  | Option.some SensorLabel.brightness =>
    { sens with brightness := jsTruthy value }
  | Option.some SensorLabel.distance =>
    { sens with distance := jsTruthy value }
  | Option.none => sens

/-- The sensor-parsing loop of _onMessage over ports 0..3. -/
def parseSensors (dec : Nat → Nat → Nat → Nat → Rat) (data : List Nat)
    (sp : List (Option Dev)) (sens : Sensors) : Sensors :=
  (List.range 4).foldl (fun s i => sensorStep dec data sp i s) sens

/-- One iteration of the motor-position loop of _onMessage: the 4 bytes
at offset `21 + 4*i` are fed to the position setter of the motor at port
i when one exists, and discarded otherwise. -/
def motorStep (data : List Nat) (i : Nat) (motors : List (Option MotorT)) :
    List (Option MotorT) :=
  let off := 21 + 4 * i
  match (motors.get? i).join with
  | Option.some mot =>
    motors.set i (Option.some (setPosition mot
      [byteD data off, byteD data (off + 1), byteD data (off + 2), byteD data (off + 3)]))
  | Option.none => motors

/-- The motor-position loop of _onMessage over ports 0..3. -/
def parseMotors (data : List Nat) (motors : List (Option MotorT)) :
    List (Option MotorT) :=
  (List.range 4).foldl (fun ms i => motorStep data i ms) motors

/-- The per-port motor lifecycle step of the device-list branch: create a
fresh motor when a non-`Dev.none` type is reported for an empty slot, clear
the slot when `Dev.none` is reported for an occupied one (the two source
conditions are mutually exclusive and applied in sequence). -/
def updateMotorPort (t : Dev) (old : Option MotorT) (m : Nat) : Option MotorT :=
  let o1 := if t ≠ Dev.none ∧ old = Option.none then Option.some (newMotor m t) else old
  let o2 := if t = Dev.none ∧ o1 ≠ Option.none then Option.none else o1
  o2

/-- The motor lifecycle loop of the device-list branch over ports 0..3,
reading the just-parsed motor-port types `ts`. -/
def updateMotorsList (ts : List Dev) (motors : List (Option MotorT)) :
    List (Option MotorT) :=
  (List.range 4).foldl
    (fun acc m => acc.set m (updateMotorPort ((ts.get? m).getD Dev.none) ((acc.get? m).join) m))
    motors

/-- EV3._onMessage on the decoded reply bytes. A frame whose byte 4 is
not DIRECT_REPLY (0x02) — including a frame shorter than 5 bytes, whose
byte 4 is undefined — is dropped. With `_updateDevices` set the frame is
parsed as a device list (sensor types at bytes 5..8, motor types at
bytes 21..24, then the motor lifecycle loop). Otherwise, when neither
port table contains an undefined hole (true for the empty initial tables
as well, since JS `[].includes(undefined)` is false), the frame is parsed
as sensor values followed by motor positions. `dec` is the little-endian
float32 decoder (a DataView builtin, abstract here). -/
def onMessage (dec : Nat → Nat → Nat → Nat → Rat) (st : EV3State) (data : List Nat) :
    EV3State :=
  if data.get? 4 ≠ Option.some 2 then st
  else if st.updateDevices then
    let spDevs := (List.range 4).map (fun i => devOfOpt (data.get? (i + 5)))
    let mpDevs := (List.range 4).map (fun i => devOfOpt (data.get? (i + 21)))
    { st with
      sensorPorts := spDevs.map Option.some,
      motorPorts := mpDevs.map Option.some,
      motors := updateMotorsList mpDevs st.motors,
      updateDevices := false }
  else if st.sensorPorts.contains Option.none = false ∧
      st.motorPorts.contains Option.none = false then
    { st with
      sensors := parseSensors dec data st.sensorPorts st.sensors,
      motors := parseMotors data st.motors }
  else st

/-- The value-poll branch of _pollValues (cycle counter not a multiple of
20): for each sensor port whose stored value is not the `Dev.none` label
(an unset port also passes this test) append a READSI opcode with the
Ev3Mode entry of that port (undefined for a gyro or motor label, modelled
`Option.none` inside the command list); the per-port counter `acc.2`
advances for every port, queried or not. Then unconditionally append the
4 GET_COUNT position reads. Returns the command list and the allocation
`sensorCount * 4`. -/
def pollValueBody (sp : List (Option Dev)) : List (Option Nat) × Nat :=
  let sensorFold := (List.range 4).foldl (fun acc i =>
    (if (sp.get? i).join ≠ Option.some Dev.none then
        acc.1 ++ [Option.some 0x9D, Option.some 0, Option.some i, Option.some 0,
          modeOf ((sp.get? i).join), Option.some 0xE1, Option.some (acc.2 * 4)]
      else acc.1,
     acc.2 + 1)) ([], 0)
  let motorFold := (List.range 4).foldl (fun acc i =>
    (acc.1 ++ [Option.some 0xB3, Option.some 0, Option.some i, Option.some 0xE1,
      Option.some (acc.2 * 4)],
     acc.2 + 1)) sensorFold
  (motorFold.1, motorFold.2 * 4)

/-- One _pollValues tick: every 20th cycle issues the fixed device-list
query with allocation 33; every other cycle issues the value poll.
Returns the opcode list and the allocation handed to generateCommand. -/
def pollTick (counter : Nat) (sp : List (Option Dev)) : List (Option Nat) × Nat :=
  if counter % 20 = 0 then
    ([Option.some 0x98, Option.some 0x81, Option.some 32, Option.some 0x60,
      Option.some 0xE1, Option.some 0x20], 33)
  else pollValueBody sp

/-- The number of sensor ports actually queried on a value-poll cycle
(stored value not the `Dev.none` label), as the claim counts opcodes. -/
def queriedSensorCount (sp : List (Option Dev)) : Nat :=
  ((List.range 4).filter (fun i => (sp.get? i).join != Option.some Dev.none)).length

/-- JS Math.round: round half toward positive infinity. -/
def jsRound (q : Rat) : Int :=
  Int.floor (q + 1 / 2)

/-- The distance getter: clamp the stored raw aggregate above by 100 and
below by 0, then `Math.round(100 * value) / 100`. -/
def distanceValue (raw : Rat) : Rat :=
  let v1 := if raw > 100 then 100 else raw
  let v2 := if v1 < 0 then 0 else v1
  ((jsRound (100 * v2) : Int) : Rat) / 100

/-- The distance getter as a state observation: it only reads the stored
raw aggregate (the source getter contains no assignment). -/
def distanceRead (st : EV3State) : Rat × EV3State :=
  (distanceValue st.sensors.distance, st)

/-- Modelled from the spec: the RateLimiter utility
(util/rateLimiter.js) is not under src/. Per the RateGovernor design,
the limiter keeps a send count inside a fixed 1-second window that is
reset lazily when the window has elapsed, and a configurable
max-per-second (default 40). -/
structure Limiter where
  count : Nat
  windowStart : Nat
  maxPerSec : Nat
  deriving DecidableEq, Repr

/-- Modelled from the spec: RateLimiter.okayToSend at time `now` — reset
the window if it has elapsed, then either consume a token (count below
the maximum, send allowed) or reject the send. -/
def okayToSend (now : Nat) (l : Limiter) : Bool × Limiter :=
  let l1 := if 1000 ≤ now - l.windowStart then
      { l with count := 0, windowStart := now } else l
  if l1.count < l1.maxPerSec then (true, { l1 with count := l1.count + 1 })
  else (false, l1)

/-- Outcome of EV3.send: a promise resolved without any transport write,
or a message handed to the transport. -/
inductive SendOutcome where
  | resolvedSkipped
  | delivered
  deriving DecidableEq, Repr

/-- Observable result of one EV3.send call: its outcome, whether the
rate limiter was consulted, whether the transport write was invoked, and
the limiter state afterwards. -/
structure SendResult where
  outcome : SendOutcome
  limiterConsulted : Bool
  transportInvoked : Bool
  limiter : Limiter
  deriving DecidableEq, Repr

/-- EV3.send: when the transport is not connected, return a resolved
promise at once; otherwise, when `useLimiter` is set, consult
okayToSend and skip the send if it rejects; otherwise hand the message
to the transport. -/
def send (connected : Bool) (now : Nat) (message : List Nat) (useLimiter : Bool)
    (l : Limiter) : SendResult :=
  if connected = false then
    { outcome := SendOutcome.resolvedSkipped, limiterConsulted := false,
      transportInvoked := false, limiter := l }
  else if useLimiter then
    match okayToSend now l with
    | (false, l1) =>
      { outcome := SendOutcome.resolvedSkipped, limiterConsulted := true,
        transportInvoked := false, limiter := l1 }
    | (true, l1) =>
      { outcome := SendOutcome.delivered, limiterConsulted := true,
        transportInvoked := true, limiter := l1 }
  else
    { outcome := SendOutcome.delivered, limiterConsulted := false,
      transportInvoked := true, limiter := l }

theorem list_length_four {α : Type} (l : List α) (h : l.length = 4) :
    ∃ a b c d, l = [a, b, c, d] := by
  rcases l with _ | ⟨a, l⟩
  · exact absurd h (by simp)
  rcases l with _ | ⟨b, l⟩
  · exact absurd h (by simp)
  rcases l with _ | ⟨c, l⟩
  · exact absurd h (by simp)
  rcases l with _ | ⟨d, l⟩
  · exact absurd h (by simp)
  rcases l with _ | ⟨e, l⟩
  · exact ⟨a, b, c, d, rfl⟩
  · refine absurd h ?_
    simp only [List.length_cons]
    omega

theorem jsRound_eq (q : Rat) (n : Int) (h1 : (n : Rat) ≤ q + 1 / 2)
    (h2 : q + 1 / 2 < n + 1) : jsRound q = n := by
  unfold jsRound
  rw [Int.floor_eq_iff]
  exact ⟨h1, h2⟩

theorem updateMotorPort_ne (t : Dev) (old : Option MotorT) (k : Nat) :
    updateMotorPort t old k ≠ Option.none ↔ t ≠ Dev.none := by
  unfold updateMotorPort
  by_cases ht : t = Dev.none <;> by_cases ho : old = Option.none <;>
    simp [ht, ho]

/-- Claim C1 (code bug evaluation): for a 10-byte payload the length
field does equal `frame.length - 2` (= 15), but for a 251-byte payload
(total length after the length bytes = 256) the high length byte is
written by JS logical AND (`len >> 8 && 0xFF` instead of bitwise AND),
yielding 0xFF, so the little-endian length field reads 65280 while
`frame.length - 2` is 256 — the claimed invariant fails. -/
theorem generateCommand_length_field_bug :
    lenField (generateCommand 0x80 (List.replicate 10 0) 0) =
      (generateCommand 0x80 (List.replicate 10 0) 0).length - 2 ∧
    lenField (generateCommand 0x80 (List.replicate 251 0) 0) = 65280 ∧
    (generateCommand 0x80 (List.replicate 251 0) 0).length - 2 = 256 ∧
    lenField (generateCommand 0x80 (List.replicate 251 0) 0) ≠
      (generateCommand 0x80 (List.replicate 251 0) 0).length - 2 := by
  refine ⟨by decide, by decide, by decide, by decide⟩

/-- Claim C2 (counterexample): with all four sensor ports discovered as
`Dev.none` no sensor opcode is issued, so the claimed allocation
`4 × (queried + 4)` would be 16, yet the code passes allocation 32 on a
value-poll tick (counter 1). -/
theorem poll_allocation_claim_counterexample :
    (1 % 20 ≠ 0) ∧
    queriedSensorCount (List.replicate 4 (Option.some Dev.none)) = 0 ∧
    (pollTick 1 (List.replicate 4 (Option.some Dev.none))).2 = 32 ∧
    (pollTick 1 (List.replicate 4 (Option.some Dev.none))).2 ≠
      4 * (queriedSensorCount (List.replicate 4 (Option.some Dev.none)) + 4) := by
  refine ⟨by decide, by decide, by decide, by decide⟩

/-- Claim C2 (amended): on every value-poll tick (cycle counter not a
multiple of 20) the allocation passed to the command builder is 32
(= 4 × 8), independent of how many sensor ports are actually queried:
the per-port counter advances for all 4 sensor ports plus the 4 position
reads. -/
theorem poll_allocation_always_32 (counter : Nat) (sp : List (Option Dev))
    (h : counter % 20 ≠ 0) :
    (pollTick counter sp).2 = 32 := by
  unfold pollTick
  rw [if_neg h]
  rfl

theorem poll_allocation_always_32_witness :
    (1 % 20 ≠ 0) ∧ (pollTick 1 (List.replicate 4 (Option.some Dev.none))).2 = 32 :=
  ⟨by decide, poll_allocation_always_32 1 (List.replicate 4 (Option.some Dev.none)) (by decide)⟩

/-- Claim C3 (counterexample): 32767 = 0x7FFF fits in 15 bits, so the
claim demands the 2-byte (tag 0x82) encoding, but the strict
comparison `run < 0x7fff` sends 0x7FFF itself to the 4-byte (tag 0x83)
encoding. -/
theorem runValues_threshold_counterexample :
    (32767 : Nat) ≤ 0x7fff ∧
    runValues 32767 = [0x83, 255, 127, 0, 0] ∧
    (runValues 32767).get? 0 ≠ Option.some 0x82 := by
  refine ⟨by decide, by decide, by decide⟩

/-- Claim C3 (amended): the steady-run length is encoded as a 2-byte
operand (tag 0x82, 3 bytes total) if and only if it is strictly below
0x7FFF, and as a 4-byte operand (tag 0x83, 5 bytes total) otherwise —
the boundary value 0x7FFF itself already uses the 4-byte form. -/
theorem runValues_threshold (run : Nat) :
    (((runValues run).get? 0 = Option.some 0x82 ∧ (runValues run).length = 3) ↔
      run < 0x7fff) ∧
    (((runValues run).get? 0 = Option.some 0x83 ∧ (runValues run).length = 5) ↔
      ¬ run < 0x7fff) := by
  unfold runValues
  by_cases h : run < 0x7fff <;> simp [h]

/-- Claim C4: the 4-byte little-endian decode used by the motor
position setter is twos-complement: bytes for unsigned 0x7FFFFFFF give 2147483647, bytes
for 0x80000000 give -2147483648, bytes for 0xFFFFFFFF give -1, and in
general any unsigned value above 0x7FFFFFFF has 0x100000000 subtracted. -/
theorem position_decode_boundaries :
    (∀ m : MotorT,
      (setPosition m [0xFF, 0xFF, 0xFF, 0x7F]).position = 2147483647 ∧
      (setPosition m [0x00, 0x00, 0x00, 0x80]).position = -2147483648 ∧
      (setPosition m [0xFF, 0xFF, 0xFF, 0xFF]).position = -1) ∧
    (∀ b0 b1 b2 b3 : Nat,
      0x7fffffff < b0 + b1 * 256 + b2 * 256 * 256 + b3 * 256 * 256 * 256 →
      decodeInt32 b0 b1 b2 b3 =
        ((b0 : Int) + (b1 : Int) * 256 + (b2 : Int) * 256 * 256
          + (b3 : Int) * 256 * 256 * 256) - 0x100000000) := by
  constructor
  · intro m
    refine ⟨?_, ?_, ?_⟩ <;> simp only [setPosition, byteD] <;> decide
  · intro b0 b1 b2 b3 h
    have hc : ((0x7fffffff : Int) <
        (b0 : Int) + (b1 : Int) * 256 + (b2 : Int) * 256 * 256
          + (b3 : Int) * 256 * 256 * 256) := by exact_mod_cast h
    simp only [decodeInt32]
    rw [if_pos hc]

theorem position_decode_boundaries_witness :
    (setPosition (newMotor 0 Dev.largeMotor) [0xFF, 0xFF, 0xFF, 0xFF]).position = -1 ∧
    0x7fffffff < 255 + 255 * 256 + 255 * 256 * 256 + 255 * 256 * 256 * 256 ∧
    decodeInt32 255 255 255 255 =
      ((255 : Int) + (255 : Int) * 256 + (255 : Int) * 256 * 256
        + (255 : Int) * 256 * 256 * 256) - 0x100000000 :=
  ⟨(position_decode_boundaries.1 (newMotor 0 Dev.largeMotor)).2.2,
   by decide,
   position_decode_boundaries.2 255 255 255 255 (by decide)⟩

/-- Claim C5: any inbound buffer whose byte 4 is not the DIRECT_REPLY
tag 0x02 — including buffers shorter than the 5-byte header, whose byte 4
is undefined — is dropped by _onMessage with the whole session state
(ports, readings, buttons, motors, positions) unchanged. -/
theorem malformed_reply_no_state_change (dec : Nat → Nat → Nat → Nat → Rat)
    (st : EV3State) (data : List Nat) (h : data.get? 4 ≠ Option.some 2) :
    onMessage dec st data = st := by
  unfold onMessage
  rw [if_pos h]

theorem malformed_reply_no_state_change_witness :
    (([6, 0, 0, 0, 4] : List Nat).get? 4 ≠ Option.some 2) ∧
    onMessage (fun _ _ _ _ => 0) initialState [6, 0, 0, 0, 4] = initialState :=
  ⟨by decide,
   malformed_reply_no_state_change (fun _ _ _ _ => 0) initialState [6, 0, 0, 0, 4] (by decide)⟩

/-- Claim C10: a send attempted while the transport reports not connected
returns a resolved promise immediately: the rate limiter is not
consulted (its state is returned unchanged, no token consumed) and the
transport is not invoked, for any message, any useLimiter argument and
any limiter state. -/
theorem disconnected_send_skips_limiter (now : Nat) (message : List Nat)
    (useLimiter : Bool) (l : Limiter) :
    send false now message useLimiter l =
      { outcome := SendOutcome.resolvedSkipped, limiterConsulted := false,
        transportInvoked := false, limiter := l } := rfl

/-- Claim C6: in a session where no device-list reply has been processed
(port tables in their initial empty state, no motor instances, device
update flag clear), a success-tagged value-poll reply leaves the entire
session state — sensor readings, button flags and motor positions —
unchanged, for any reply bytes and any float decoder. -/
theorem pre_discovery_value_reply_no_change (dec : Nat → Nat → Nat → Nat → Rat)
    (st : EV3State) (data : List Nat)
    (hs : st.sensorPorts = []) (hm : st.motorPorts = [])
    (hmot : st.motors = [Option.none, Option.none, Option.none, Option.none])
    (hud : st.updateDevices = false) :
    onMessage dec st data = st := by
  obtain ⟨sp, mp, sens, mots, ud⟩ := st
  dsimp only at hs hm hmot hud
  subst hs
  subst hm
  subst hmot
  subst hud
  unfold onMessage
  split
  · rfl
  · rfl

theorem pre_discovery_value_reply_no_change_witness :
    initialState.sensorPorts = [] ∧ initialState.motorPorts = [] ∧
    initialState.motors = [Option.none, Option.none, Option.none, Option.none] ∧
    initialState.updateDevices = false ∧
    (([35, 0, 0, 0, 2] ++ List.replicate 32 0).get? 4 = Option.some 2) ∧
    onMessage (fun _ _ _ _ => 0) initialState ([35, 0, 0, 0, 2] ++ List.replicate 32 0) =
      initialState :=
  ⟨rfl, rfl, rfl, rfl, by decide,
   pre_discovery_value_reply_no_change (fun _ _ _ _ => 0) initialState
     ([35, 0, 0, 0, 2] ++ List.replicate 32 0) rfl rfl rfl rfl⟩

/-- Claim C7: for any motor with nonzero power, scheduling turnOnFor(100)
and then turnOnFor(50) arms two coast timers with distinct tokens and
leaves the second (latest) token as the current command id of the motor; no
coast has been emitted yet; the callback of the first run fires as a no-op
(its captured token no longer matches), and after both callbacks fire
exactly one coast frame has been emitted — the one belonging to the
callback of the second token. -/
theorem coast_race_single_coast (m : MotorT) (c : Nat) (hp : m.power ≠ 0) :
    (coastRaceStart m c).motor.commandID = Option.some (c + 1) ∧
    (coastRaceStart m c).timers = [(c, 100 + m.coastDelay), (c + 1, 50 + m.coastDelay)] ∧
    coastCount (coastRaceStart m c) = 0 ∧
    fireCoastTimer c (coastRaceStart m c) = coastRaceStart m c ∧
    coastCount (fireCoastTimer (c + 1) (coastRaceStart m c)) = 1 ∧
    fireCoastTimer c (fireCoastTimer (c + 1) (coastRaceStart m c)) =
      fireCoastTimer (c + 1) (coastRaceStart m c) := by
  have h1 : coastRaceStart m c =
      { motor := { m with commandID := Option.some (c + 1) },
        uidCtr := c + 2,
        timers := [(c, 100 + m.coastDelay), (c + 1, 50 + m.coastDelay)],
        sent := [turnOnForCmd m 100,
          turnOnForCmd { m with commandID := Option.some c } 50] } := by
    simp [coastRaceStart, turnOnForRun, coastAfterRun, hp]
  have h2 : fireCoastTimer (c + 1) (coastRaceStart m c) =
      { motor := { m with commandID := Option.none },
        uidCtr := c + 2,
        timers := [(c, 100 + m.coastDelay), (c + 1, 50 + m.coastDelay)],
        sent := [turnOnForCmd m 100,
          turnOnForCmd { m with commandID := Option.some c } 50,
          coastCmd { m with commandID := Option.some (c + 1) }] } := by
    rw [h1]
    simp [fireCoastTimer, coastRun, hp]
  refine ⟨?_, ?_, ?_, ?_, ?_, ?_⟩
  · rw [h1]
  · rw [h1]
  · rw [h1]
    rfl
  · rw [h1]
    simp [fireCoastTimer]
  · rw [h2]
    rfl
  · rw [h2]
    simp [fireCoastTimer]

theorem coast_race_single_coast_witness :
    (newMotor 0 Dev.largeMotor).power ≠ 0 ∧
    coastCount (fireCoastTimer 1 (coastRaceStart (newMotor 0 Dev.largeMotor) 0)) = 1 :=
  ⟨by decide,
   (coast_race_single_coast (newMotor 0 Dev.largeMotor) 0 (by decide)).2.2.2.2.1⟩

/-- Claim C8: after processing a device-list reply (device update flag
set, success tag), a motor instance exists at port m exactly when the
type reported for that port in the reply is not `Dev.none` — a reported
motor type creates an instance where none existed, a reported `Dev.none`
removes an existing one, and discovery alone decides this. -/
theorem device_list_motor_lifecycle (dec : Nat → Nat → Nat → Nat → Rat)
    (st : EV3State) (data : List Nat) (m : Nat)
    (hm : m < 4) (hud : st.updateDevices = true)
    (htag : data.get? 4 = Option.some 2) (hlen : st.motors.length = 4) :
    (((onMessage dec st data).motors.get? m).join ≠ Option.none ↔
      devOfOpt (data.get? (m + 21)) ≠ Dev.none) := by
  obtain ⟨sp, mp, sens, mots, ud⟩ := st
  have hud2 : ud = true := hud
  subst hud2
  have hlen2 : mots.length = 4 := hlen
  obtain ⟨a, b, c, d, rfl⟩ := list_length_four mots hlen2
  unfold onMessage
  rw [if_neg (not_not_intro htag)]
  rw [if_pos rfl]
  unfold updateMotorsList
  interval_cases m <;>
    simp [List.range_succ, updateMotorPort_ne]

theorem device_list_motor_lifecycle_witness :
    ({ initialState with updateDevices := true } : EV3State).updateDevices = true ∧
    (([0, 0, 0, 0, 2] ++ List.replicate 16 0 ++ [0, 0, 7, 0]).get? 4 = Option.some 2) ∧
    ({ initialState with updateDevices := true } : EV3State).motors.length = 4 ∧
    (((onMessage (fun _ _ _ _ => 0) { initialState with updateDevices := true }
        ([0, 0, 0, 0, 2] ++ List.replicate 16 0 ++ [0, 0, 7, 0])).motors.get? 2).join ≠
          Option.none ↔
      devOfOpt (([0, 0, 0, 0, 2] ++ List.replicate 16 0 ++ [0, 0, 7, 0]).get? (2 + 21)) ≠
        Dev.none) :=
  ⟨rfl, by decide, rfl,
   device_list_motor_lifecycle (fun _ _ _ _ => 0) { initialState with updateDevices := true }
     ([0, 0, 0, 0, 2] ++ List.replicate 16 0 ++ [0, 0, 7, 0]) 2
     (by decide) rfl (by decide) rfl⟩

/-- Claim C9: the distance accessor clamps the stored raw aggregate to
the range 0..100 and rounds to 2 decimal places — raw 150 is exposed as
100, raw -5 as 0, raw 42.345 as 42.35 — it never mutates the stored
state, and every exposed value is an integer number of hundredths
between 0 and 100. -/
theorem distance_clamp_round :
    distanceValue 150 = 100 ∧
    distanceValue (-5) = 0 ∧
    distanceValue (42345 / 1000) = 4235 / 100 ∧
    (∀ st : EV3State, (distanceRead st).2 = st) ∧
    (∀ raw : Rat, ∃ n : Int, distanceValue raw = (n : Rat) / 100 ∧ 0 ≤ n ∧ n ≤ 10000) := by
  have hj1 : jsRound (10000 : Rat) = 10000 := jsRound_eq _ _ (by norm_num) (by norm_num)
  have hj2 : jsRound (0 : Rat) = 0 := jsRound_eq _ _ (by norm_num) (by norm_num)
  have hj3 : jsRound ((8469 : Rat) / 2) = 4235 := jsRound_eq _ _ (by norm_num) (by norm_num)
  refine ⟨?_, ?_, ?_, fun st => rfl, fun raw => ?_⟩
  · simp only [distanceValue]
    norm_num [hj1]
  · simp only [distanceValue]
    norm_num [hj2]
  · simp only [distanceValue]
    norm_num [hj3]
  unfold distanceValue
  set v1 := if raw > 100 then 100 else raw with hv1
  set v2 := if v1 < 0 then 0 else v1 with hv2
  have h0 : 0 ≤ v2 := by
    rw [hv2]
    split_ifs with h
    · exact le_refl 0
    · linarith
  have h100 : v2 ≤ 100 := by
    have hv1le : v1 ≤ 100 := by
      rw [hv1]
      split_ifs with h
      · exact le_refl 100
      · linarith
    rw [hv2]
    split_ifs with h
    · norm_num
    · exact hv1le
  refine ⟨jsRound (100 * v2), rfl, ?_, ?_⟩
  · unfold jsRound
    apply Int.le_floor.mpr
    push_cast
    nlinarith
  · unfold jsRound
    have hlt : (100 * v2 + 1 / 2 : Rat) < ((10001 : Int) : Rat) := by
      push_cast
      nlinarith
    have h2 := Int.floor_lt.mpr hlt
    omega

end EV3Spec
